import Mathlib

/-!
Verification of the VRAM-calculator automation script
(`vram_calculator_automation.py`, `config.py`) against its specification.

The script drives a browser, so every function's interaction with the page is
modelled by an explicit environment argument (what the DOM contained, whether an
element lookup succeeded, what text the results panel showed).  The control flow
of each Python function is translated faithfully; browser reactions that the
repository does not own (a clicked combo-box option becoming the input's value)
follow the spec's description of the collaborator.
-/

/- ===================== generic string machinery =====================
   JavaScript `String.includes`, Python `in`, and the concrete regular
   expressions used by the script, modelled over `List Char`.  JS `\d` is
   `[0-9]` (= `Char.isDigit`); JS `\s` and `trim` use a whitespace class
   approximated by `Char.isWhitespace`. -/

/-- Predicate `leadsWith needle hay`: does `hay` start with `needle`? -/
def leadsWith : List Char → List Char → Bool
  | [], _ => true
  | _ :: _, [] => false
  | a :: as, b :: bs => a == b && leadsWith as bs

/-- Predicate `hasSub hay needle`: does `needle` occur as a contiguous substring of `hay`?
(JS `hay.includes(needle)`, Python `needle in hay`). -/
def hasSub : List Char → List Char → Bool
  | [], needle => needle.isEmpty
  | c :: t, needle => leadsWith needle (c :: t) || hasSub t needle

/-- JS `hay.includes(needle)` / Python `needle in hay` on strings. -/
def strIncludes (hay needle : String) : Bool :=
  hasSub hay.toList needle.toList

/-- JS `trim()`: strip whitespace from both ends. -/
def trimChars (l : List Char) : List Char :=
  ((l.dropWhile Char.isWhitespace).reverse.dropWhile Char.isWhitespace).reverse

/-- JS `hay.trim().includes(needle)` — the option-matching test of `click_script`. -/
def trimIncludes (hay needle : String) : Bool :=
  hasSub (trimChars hay.toList) needle.toList

/-- Case-insensitive literal match (a regex literal under the `/i` flag):
if `s` starts with `lit` up to ASCII case, return the remainder. -/
def matchLit : List Char → List Char → Option (List Char)
  | [], s => some s
  | _ :: _, [] => none
  | l :: ls, c :: cs => if l.toLower == c.toLower then matchLit ls cs else none

/-- Case-sensitive literal match (a regex literal without `/i`). -/
def matchLitCS : List Char → List Char → Option (List Char)
  | [], s => some s
  | _ :: _, [] => none
  | l :: ls, c :: cs => if l == c then matchLitCS ls cs else none

/-- Greedy `\s*`. -/
def skipWs : List Char → List Char
  | [] => []
  | c :: cs => if c.isWhitespace then skipWs cs else c :: cs

/-- Greedy `\d*`: maximal digit run and the rest. -/
def takeDigits : List Char → List Char × List Char
  | [] => ([], [])
  | c :: cs =>
    if c.isDigit then
      match takeDigits cs with
      | (d, r) => (c :: d, r)
    else ([], c :: cs)

/-- JS `capture.replace(',', '.')`: replaces only the first occurrence. -/
def replaceComma : List Char → List Char
  | [] => []
  | c :: cs => if c == ',' then '.' :: cs else c :: replaceComma cs

/- ===================== Dropdown Selector =====================
   `select_dropdown_option` (vram_calculator_automation.py lines 123-196).
   Each iteration of its `for attempt in range(max_attempts)` loop:
     1. runs `type_script`, which returns false when
        `document.querySelector(selector)` is null — the Python then does
        `continue` (next attempt);
     2. waits for an `[role='option']` element whose text contains the target
        and clicks it, or falls back to `click_script`, which walks all
        `[role="option"], .mantine-Select-option` nodes in document order and
        clicks the first whose `textContent.trim()` includes the target, and
        failing that clicks a visible `div`/`span` whose text equals the target;
     3. on a click returns True; otherwise the loop continues.
   After the loop: `return False`. -/

/-- What the page presented during one attempt's polling window. -/
structure PageAttempt where
  /-- Whether `document.querySelector(selector)` found the input (type_script succeeded). -/
  inputFound : Bool
  /-- rendered option texts (`[role="option"], .mantine-Select-option`), document order. -/
  options : List String
  /-- texts of visible `div`/`span` elements scanned by the exact-match fallback. -/
  exactEls : List String
deriving DecidableEq

/-- First option (document order) whose trimmed text contains the target —
the loop inside `click_script` (and the matching rule of the XPath wait
`//*[@role='option'][contains(text(), ...)]`). -/
def firstIncl : List String → String → Option String
  | [], _ => none
  | o :: rest, target =>
    if trimIncludes o target then some o else firstIncl rest target

/-- One complete attempt: type into the input (fails when the input is absent),
then click the first matching option, else the exact-text fallback.  Returns the
text of the clicked element, if any. -/
def attemptSelect (a : PageAttempt) (target : String) : Option String :=
  if a.inputFound then
    match firstIncl a.options target with
    | some o => some o
    | none => a.exactEls.find? (fun e => e == target)
  else none

/-- Outcome of a `select_dropdown_option` call: the returned boolean, how many
loop iterations ran, and the input's recorded value afterwards (per the spec,
clicking an option makes the input's value that option's text). -/
structure SelectResult where
  success : Bool
  attemptsUsed : Nat
  recorded : Option String
deriving DecidableEq

/-- The `for attempt in range(max_attempts)` loop; `used` counts iterations
already performed.  A clicked attempt returns True at once; any other attempt
(input absent, or no match) falls through to the next iteration. -/
def selectLoop (env : Nat → PageAttempt) (target : String) : Nat → Nat → SelectResult
  | 0, used => ⟨false, used, none⟩
  | n + 1, used =>
    match attemptSelect (env used) target with
    | some o => ⟨true, used + 1, some o⟩
    | none => selectLoop env target n (used + 1)

/-- Function `select_dropdown_option(selector, option_text, max_attempts)`; the source's
default for `max_attempts` is 3. -/
def select_dropdown_option (env : Nat → PageAttempt) (target : String)
    (max_attempts : Nat) : SelectResult :=
  selectLoop env target max_attempts 0

/-- Function `select_model` (lines 198-212): delegates to the selector with the default
retry ceiling; when it succeeded, reads the input's value back, logs a check of
`model_name in actual_value` (a substring test), and returns True in both the
match and the mismatch branch — i.e. it returns the selector's boolean. -/
def select_model (env : Nat → PageAttempt) (model_name : String) : Bool :=
  (select_dropdown_option env model_name 3).success

/- ===================== Value Setter =====================
   `set_input_value` (lines 229-268).  The try-block locates and clicks the
   element (an exception — element not found — lands in the except-block, which
   returns False), runs a script returning the input's value (or false when the
   input has vanished), and then returns True in BOTH branches of the value
   check: `if result and str(value) in str(result): return True` / `return True
   # Assume success even if value check fails`. -/

/-- Parameter `elemFound`: the try-block's element lookup and click raised no exception.
`jsResult`: the value string the script read back (`none` models the script's
`false`, the input being absent at script time). -/
def set_input_value (elemFound : Bool) (jsResult : Option String) (value : Int) : Bool :=
  if elemFound then
    match jsResult with
    | some result => if strIncludes result (toString value) then true else true
    | none => true
  else false

/- ===================== Result Extractor =====================
   `extract_results` (lines 308-370).  Its script locates the results container
   by the exact header text `Performance & Memory Results` (returning
   `{error: ...}` when absent), then matches these regexes on the container's
   `innerText`:
     vram:        /(\d+[.,]\d+)\s*GB\s*of/i
     throughput:  /Total Throughput:\s*~?(\d+(?:[.,]\d+)?)\s*tok\/s/i
     per-user:    /Per-User Speed:\s*~?(\d+(?:[.,]\d+)?)\s*tok\/s/i
                  falling back to /Generation Speed:\s*~?.../i
     batch/users: /Batch:\s*(\d+)/ and /Users:\s*(\d+)/ (case-sensitive)
   Each capture has `','` replaced by `'.'` (vram/throughput/per-user only).
   The anchored matchers below implement the patterns; a leftmost search over
   all suffixes implements `.match`.  (For these patterns greedy matching
   without backtracking coincides with the regex semantics: each greedy piece
   ends at a character the following piece could not consume.) -/

/-- Anchored `\d+[.,]\d+`, returning (capture, rest). -/
def matchDecimal (s : List Char) : Option (List Char × List Char) :=
  match takeDigits s with
  | ([], _) => none
  | (c :: d1, sep :: r2) =>
    if sep == '.' || sep == ',' then
      match takeDigits r2 with
      | ([], _) => none
      | (c2 :: d2, r3) => some ((c :: d1) ++ sep :: c2 :: d2, r3)
    else none
  | (_ :: _, []) => none

/-- Anchored `\d+(?:[.,]\d+)?`, returning (capture, rest). -/
def matchNumber (s : List Char) : Option (List Char × List Char) :=
  match takeDigits s with
  | ([], _) => none
  | (c :: d1, []) => some (c :: d1, [])
  | (c :: d1, sep :: r2) =>
    if sep == '.' || sep == ',' then
      match takeDigits r2 with
      | ([], _) => some (c :: d1, sep :: r2)
      | (c2 :: d2, r3) => some ((c :: d1) ++ sep :: c2 :: d2, r3)
    else some (c :: d1, sep :: r2)

/-- Anchored `(\d+[.,]\d+)\s*GB\s*of` under `/i`, returning the capture. -/
def vramAt (s : List Char) : Option (List Char) :=
  match matchDecimal s with
  | none => none
  | some (cap, r) =>
    match matchLit "GB".toList (skipWs r) with
    | none => none
    | some r2 =>
      match matchLit "of".toList (skipWs r2) with
      | none => none
      | some _ => some cap

/-- Matcher for `~?`: optionally consume one leading tilde. -/
def stripTilde : List Char → List Char
  | '~' :: t => t
  | s => s

/-- Anchored `LABEL\s*~?(\d+(?:[.,]\d+)?)\s*tok\/s` under `/i`. -/
def labeledNumAt (label : List Char) (s : List Char) : Option (List Char) :=
  match matchLit label s with
  | none => none
  | some r =>
    match matchNumber (stripTilde (skipWs r)) with
    | none => none
    | some (cap, r3) =>
      match matchLit "tok/s".toList (skipWs r3) with
      | none => none
      | some _ => some cap

/-- Anchored case-sensitive `LABEL\s*(\d+)`. -/
def intLabelAt (label : List Char) (s : List Char) : Option (List Char) :=
  match matchLitCS label s with
  | none => none
  | some r =>
    match takeDigits (skipWs r) with
    | ([], _) => none
    | (c :: d, _) => some (c :: d)

/-- Leftmost search: JS `text.match(re)` tries each start position left to
right with the anchored matcher `f`. -/
def searchWith (f : List Char → Option (List Char)) : List Char → Option (List Char)
  | [] => f []
  | c :: rest =>
    match f (c :: rest) with
    | some cap => some cap
    | none => searchWith f rest

/-- The object the extraction script returns in its success case. -/
structure JsExtracted where
  vram_gb : Option String
  total_throughput : Option String
  per_user_speed : Option String
  verified_batch : Option String
  verified_users : Option String
deriving DecidableEq

/-- The extraction script's result: `{error: ...}` or the matched fields. -/
inductive JsOut where
  | err (msg : String)
  | ok (r : JsExtracted)
deriving DecidableEq

/-- The script of `extract_results`, over the located results container's text
(`none` models `findResultsHeader()` returning null). -/
def extract_js (container : Option String) : JsOut :=
  match container with
  | none => JsOut.err "Results header not found"
  | some allText =>
    JsOut.ok
      { vram_gb :=
          (searchWith vramAt allText.toList).map (fun c => String.mk (replaceComma c)),
        total_throughput :=
          (searchWith (labeledNumAt "Total Throughput:".toList) allText.toList).map
            (fun c => String.mk (replaceComma c)),
        per_user_speed :=
          (match searchWith (labeledNumAt "Per-User Speed:".toList) allText.toList with
           | some c => some c
           | none => searchWith (labeledNumAt "Generation Speed:".toList) allText.toList).map
            (fun c => String.mk (replaceComma c)),
        verified_batch :=
          (searchWith (intLabelAt "Batch:".toList) allText.toList).map
            (fun c => String.mk c),
        verified_users :=
          (searchWith (intLabelAt "Users:".toList) allText.toList).map
            (fun c => String.mk c) }

/-- Python truthiness of an optional string (`if result.get("vram_gb"):`):
`None` and the empty string are falsy. -/
def pyTruthy (o : Option String) : Option String :=
  match o with
  | none => none
  | some s => if s.data.isEmpty then none else some s

/-- The record `extract_results` returns.  The Python converts each present
field with `float(...)`; the matched numeral string is kept here. -/
structure Extracted where
  vram_gb : Option String
  total_throughput : Option String
  per_user_speed : Option String
deriving DecidableEq

/-- Function `extract_results` (Python part): start from all-`None`, and fill each field
only when the script returned no error and the field is truthy. -/
def extract_results (container : Option String) : Extracted :=
  match extract_js container with
  | JsOut.err _ => ⟨none, none, none⟩
  | JsOut.ok r =>
    ⟨pyTruthy r.vram_gb, pyTruthy r.total_throughput, pyTruthy r.per_user_speed⟩

/- ===================== configuration (config.py) ===================== -/

/-- List `MODELS`: (display_name, site_model_name, quantization). -/
def MODELS : List (String × String × String) :=
  [("qwen3:32b-q8_0", "Qwen3-32B", "Q8"),
   ("Gemma-3-27B-IT (FP16)", "Gemma 3 27B", "FP16"),
   ("Think2SQL-14B (FP16)", "Qwen2.5-14B", "FP16"),
   ("Qwen3-30B-A3B (Q8)", "Qwen3-30B-A3B", "Q8")]

/-- List `BATCH_SIZES`. -/
def BATCH_SIZES : List Int := [1, 4, 8]

/-- List `CONTEXT_LENGTHS`: (tokens, label). -/
def CONTEXT_LENGTHS : List (Int × String) :=
  [(2048, "2K"), (4096, "4K"), (8192, "8K"), (16384, "16K"), (32768, "32K")]

/-- List `CONCURRENT_USERS`. -/
def CONCURRENT_USERS : List Int := [1, 4, 8, 16, 64]

/- ===================== Collection Driver =====================
   `collect_single_configuration` (lines 372-428) and `run_full_collection`
   (lines 430-479). -/

/-- One result row (the dict built at lines 413-422; Python keys "Model",
"Quantization", "Batch Size", "Context Length", "Concurrent Users",
"VRAM (GB)", "Tokens per User (tok/s)", "Total Throughput (tok/s)"). -/
structure Row where
  model : String
  quantization : String
  batchSize : Int
  contextLength : String
  concurrentUsers : Int
  vram_gb : Option String
  tokensPerUser : Option String
  totalThroughput : Option String
deriving DecidableEq

/-- Per-scenario environment: the boolean outcomes of the six configuration
steps (all discarded by the source, which ignores the return values at lines
387-399), and the results-container text seen by `extract_results`. -/
structure StepEnv where
  modelSelected : Bool
  quantSelected : Bool
  kvSelected : Bool
  batchSet : Bool
  seqSet : Bool
  usersSet : Bool
  container : Option String
deriving DecidableEq

/-- Function `collect_single_configuration`: runs the six configuration steps (whose
boolean results are dropped), verifies (log only), extracts, and
unconditionally returns the row; `context_length` (the token count) is passed
to the page but the row records `context_label`. -/
def collect_single_configuration (model_display_name : String)
    (model_site_name : String) (quantization : String) (batch_size : Int)
    (context_length : Int) (context_label : String) (concurrent_users : Int)
    (env : StepEnv) : Option Row :=
  match extract_results env.container with
  | extracted =>
    some
      { model := model_display_name,
        quantization := quantization,
        batchSize := batch_size,
        contextLength := context_label,
        concurrentUsers := concurrent_users,
        vram_gb := extracted.vram_gb,
        tokensPerUser := extracted.per_user_speed,
        totalThroughput := extracted.total_throughput }

/-- Function `run_full_collection`, its nested loop (lines 447-468): for each model, batch
size, context length and user count, collect the configuration and append the
row when it is truthy (`if result: self.results.append(result)`). -/
def run_full_collection
    (env : String × String × String → Int → Int × String → Int → StepEnv) : List Row :=
  MODELS.foldl (fun acc m =>
    BATCH_SIZES.foldl (fun acc b =>
      CONTEXT_LENGTHS.foldl (fun acc c =>
        CONCURRENT_USERS.foldl (fun acc u =>
          match collect_single_configuration m.1 m.2.1 m.2.2 b c.1 c.2 u (env m b c u) with
          | some r => acc ++ [r]
          | none => acc) acc) acc) acc) []

/-- The declared scenario cross-product, in iteration order. -/
def scenarioList : List ((String × String × String) × Int × (Int × String) × Int) :=
  MODELS.flatMap (fun m =>
    BATCH_SIZES.flatMap (fun b =>
      CONTEXT_LENGTHS.flatMap (fun c =>
        CONCURRENT_USERS.map (fun u => (m, b, c, u)))))

/-- The row the spec prescribes for one scenario: the five input-parameter
columns from the scenario, the three output columns from that scenario's
extraction. -/
def specRow (m : String × String × String) (b : Int) (c : Int × String) (u : Int)
    (env : StepEnv) : Row :=
  { model := m.1,
    quantization := m.2.2,
    batchSize := b,
    contextLength := c.2,
    concurrentUsers := u,
    vram_gb := (extract_results env.container).vram_gb,
    tokensPerUser := (extract_results env.container).per_user_speed,
    totalThroughput := (extract_results env.container).total_throughput }

/-- Spec-side description of a full collection ("one row per scenario, in
cross-product iteration order"), to be compared with `run_full_collection`. -/
def specCollectionRows
    (env : String × String × String → Int → Int × String → Int → StepEnv) : List Row :=
  scenarioList.map (fun s => specRow s.1 s.2.1 s.2.2.1 s.2.2.2 (env s.1 s.2.1 s.2.2.1 s.2.2.2))

/- ===================== main(): export-on-exit (lines 514-545) ===================== -/

/-- One file written by `save_results` (lines 481-511 write the spreadsheet
and a CSV backup of the same rows; one event stands for the pair). -/
structure ExportEvent where
  path : String
  rows : List Row
deriving DecidableEq

/-- Function `save_results`: prints "No results to save!" and writes nothing when the
collection is empty, else writes all accumulated rows. -/
def save_results (results : List Row) (path : String) : List ExportEvent :=
  if results.isEmpty then [] else [⟨path, results⟩]

/-- How a run of `run_full_collection` inside `main`'s try-block ended, with
the rows accumulated in `self.results` at that point. -/
inductive RunOutcome where
  | completed (rows : List Row)
  | interrupted (rows : List Row)
  | errored (rows : List Row)
deriving DecidableEq

/-- Function `main`: on completion, save under a timestamped name; on
`KeyboardInterrupt`, save the partial rows (guarded by `if automation.results`)
and swallow; on any other exception, save under the error name and re-raise.
Returns the export events and whether the error propagates. -/
def mainDriver (outcome : RunOutcome) (timestamp : String) : List ExportEvent × Bool :=
  match outcome with
  | RunOutcome.completed rows =>
    (save_results rows ("vram_results_" ++ timestamp ++ ".xlsx"), false)
  | RunOutcome.interrupted rows =>
    ((if rows.isEmpty then [] else save_results rows "vram_results_partial.xlsx"), false)
  | RunOutcome.errored rows =>
    ((if rows.isEmpty then [] else save_results rows "vram_results_error.xlsx"), true)

/- ===================== session teardown (lines 472-479) ===================== -/

/-- Browser-session lifecycle events. -/
inductive SessionEvent where
  | created
  | quit
deriving DecidableEq

/-- How the body of `run_full_collection`'s try-block ended after the driver
was set up: the loop finished, or an exception (including an interrupt) escaped. -/
inductive BodyOutcome where
  | finished
  | raised
deriving DecidableEq

/-- Session trace of `run_full_collection`: `setup_driver` assigns
`self.driver` (or raises before assigning, leaving it `None`); the `finally`
clause runs on every exit and quits the driver when it is not `None`.  Returns
the event trace and whether an exception propagates out. -/
def run_full_collection_session (setupOk : Bool) (body : BodyOutcome) :
    List SessionEvent × Bool :=
  if setupOk then
    match body with
    | BodyOutcome.finished => ([SessionEvent.created, SessionEvent.quit], false)
    | BodyOutcome.raised => ([SessionEvent.created, SessionEvent.quit], true)
  else
    ([], true)

/- ===================== lemmas about the selector loop ===================== -/

/-- An attempt in which no option matched and the exact fallback found nothing
clicks nothing (whether or not typing succeeded). -/
theorem attemptSelect_eq_none (a : PageAttempt) (t : String)
    (h1 : firstIncl a.options t = none)
    (h2 : a.exactEls.find? (fun e => e == t) = none) :
    attemptSelect a t = none := by
  unfold attemptSelect
  cases a.inputFound <;> simp [h1, h2]

/-- An attempt whose typing step failed (input absent) clicks nothing. -/
theorem attemptSelect_noInput (a : PageAttempt) (t : String)
    (h : a.inputFound = false) : attemptSelect a t = none := by
  simp [attemptSelect, h]

/-- An attempt with the input present and a matching option clicks that option. -/
theorem attemptSelect_eq_some (a : PageAttempt) (t o : String)
    (h : a.inputFound = true) (hm : firstIncl a.options t = some o) :
    attemptSelect a t = some o := by
  simp [attemptSelect, h, hm]

/-- If every remaining attempt clicks nothing, the loop runs all of them and
returns failure. -/
theorem selectLoop_all_none (env : Nat → PageAttempt) (target : String) :
    ∀ n used, (∀ k, k < n → attemptSelect (env (used + k)) target = none) →
      selectLoop env target n used = ⟨false, used + n, none⟩ := by
  intro n
  induction n with
  | zero => intro used _; simp [selectLoop]
  | succ m ih =>
    intro used h
    have h0 : attemptSelect (env used) target = none := by
      simpa using h 0 (Nat.succ_pos m)
    have hrest : ∀ k, k < m → attemptSelect (env (used + 1 + k)) target = none := by
      intro k hk
      have := h (k + 1) (Nat.succ_lt_succ hk)
      have e : used + (k + 1) = used + 1 + k := by omega
      rwa [e] at this
    have e2 : used + 1 + m = used + (m + 1) := by omega
    simp only [selectLoop, h0]
    rw [ih (used + 1) hrest, e2]

/-- If the first `k` attempts click nothing and attempt `k` clicks `o`, the call
succeeds at attempt `k` (using `k + 1` iterations) and records `o`. -/
theorem selectLoop_hit (env : Nat → PageAttempt) (target : String) (o : String) :
    ∀ k n used, k < n →
      (∀ j, j < k → attemptSelect (env (used + j)) target = none) →
      attemptSelect (env (used + k)) target = some o →
      selectLoop env target n used = ⟨true, used + k + 1, some o⟩ := by
  intro k
  induction k with
  | zero =>
    intro n used hn _ hk
    obtain ⟨m, rfl⟩ : ∃ m, n = m + 1 := ⟨n - 1, by omega⟩
    have h0 : attemptSelect (env used) target = some o := by simpa using hk
    simp [selectLoop, h0]
  | succ k ih =>
    intro n used hn hprev hk
    obtain ⟨m, rfl⟩ : ∃ m, n = m + 1 := ⟨n - 1, by omega⟩
    have h0 : attemptSelect (env used) target = none := by
      simpa using hprev 0 (Nat.succ_pos k)
    have hprev' : ∀ j, j < k → attemptSelect (env (used + 1 + j)) target = none := by
      intro j hj
      have := hprev (j + 1) (by omega)
      have e : used + (j + 1) = used + 1 + j := by omega
      rwa [e] at this
    have hk' : attemptSelect (env (used + 1 + k)) target = some o := by
      have e : used + (k + 1) = used + 1 + k := by omega
      rwa [e] at hk
    have e2 : used + 1 + k + 1 = used + (k + 1) + 1 := by omega
    simp only [selectLoop, h0]
    rw [ih m (used + 1) (by omega) hprev' hk', e2]

/-- Whatever `click_script`'s option loop returns contains the target as a
substring of its trimmed text. -/
theorem firstIncl_some_includes :
    ∀ (opts : List String) (target o : String),
      firstIncl opts target = some o → trimIncludes o target = true := by
  intro opts
  induction opts with
  | nil => intro t o h; simp [firstIncl] at h
  | cons a rest ih =>
    intro t o h
    simp only [firstIncl] at h
    split at h
    · cases h; assumption
    · exact ih t o h

/-- When every option before `o` fails the substring test and `o` passes it,
the option loop returns `o`, regardless of later matches. -/
theorem firstIncl_append_first :
    ∀ (pre : List String) (o : String) (post : List String) (target : String),
      (∀ p ∈ pre, trimIncludes p target = false) →
      trimIncludes o target = true →
      firstIncl (pre ++ o :: post) target = some o := by
  intro pre
  induction pre with
  | nil => intro o post t _ ho; simp [firstIncl, ho]
  | cons a rest ih =>
    intro o post t hpre ho
    have ha : trimIncludes a t = false := hpre a (List.mem_cons_self a rest)
    simp only [List.cons_append, firstIncl, ha]
    simp only [Bool.false_eq_true, if_false]
    exact ih o post t (fun p hp => hpre p (List.mem_cons_of_mem a hp)) ho

/- ===================== lemmas about the extractor ===================== -/

/-- A `\d+[.,]\d+` capture is never empty. -/
theorem matchDecimal_cap_ne_nil (s : List Char) (cap r : List Char)
    (h : matchDecimal s = some (cap, r)) : cap ≠ [] := by
  unfold matchDecimal at h
  split at h
  · simp at h
  · split at h
    · split at h
      · simp at h
      · cases h; simp
    · simp at h
  · simp at h

/-- A `\d+(?:[.,]\d+)?` capture is never empty. -/
theorem matchNumber_cap_ne_nil (s : List Char) (cap r : List Char)
    (h : matchNumber s = some (cap, r)) : cap ≠ [] := by
  unfold matchNumber at h
  split at h
  · simp at h
  · cases h; simp
  · split at h
    · split at h
      · cases h; simp
      · cases h; simp
    · cases h; simp

/-- The vram pattern's capture is never empty. -/
theorem vramAt_cap_ne_nil (s : List Char) (cap : List Char)
    (h : vramAt s = some cap) : cap ≠ [] := by
  unfold vramAt at h
  split at h
  · simp at h
  · rename_i p hmd
    split at h
    · simp at h
    · split at h
      · simp at h
      · cases h
        exact matchDecimal_cap_ne_nil s _ _ hmd

/-- A labelled `tok/s` pattern's capture is never empty. -/
theorem labeledNumAt_cap_ne_nil (label : List Char) (s : List Char) (cap : List Char)
    (h : labeledNumAt label s = some cap) : cap ≠ [] := by
  unfold labeledNumAt at h
  split at h
  · simp at h
  · split at h
    · simp at h
    · rename_i p q hmn
      split at h
      · simp at h
      · cases h
        exact matchNumber_cap_ne_nil _ _ _ hmn

/-- Leftmost search preserves capture nonemptiness. -/
theorem searchWith_cap_ne_nil (f : List Char → Option (List Char))
    (hf : ∀ s cap, f s = some cap → cap ≠ []) :
    ∀ s cap, searchWith f s = some cap → cap ≠ [] := by
  intro s
  induction s with
  | nil =>
    intro cap h
    exact hf [] cap (by simpa [searchWith] using h)
  | cons c rest ih =>
    intro cap h
    simp only [searchWith] at h
    split at h
    · rename_i cap' heq
      cases h
      exact hf _ _ heq
    · exact ih cap h

/-- Replacing the first comma keeps a capture nonempty. -/
theorem replaceComma_ne_nil (l : List Char) (h : l ≠ []) : replaceComma l ≠ [] := by
  cases l with
  | nil => exact absurd rfl h
  | cons c cs => unfold replaceComma; split <;> simp

/-- A field fed through capture → comma replacement → Python truthiness is
`None` exactly when the pattern search found nothing. -/
theorem pyTruthy_search_none_iff (f : List Char → Option (List Char))
    (hf : ∀ s cap, f s = some cap → cap ≠ []) (cs : List Char) :
    pyTruthy ((searchWith f cs).map (fun c => String.mk (replaceComma c))) = none ↔
      searchWith f cs = none := by
  cases hsw : searchWith f cs with
  | none => simp [pyTruthy]
  | some cap =>
    have hne : replaceComma cap ≠ [] :=
      replaceComma_ne_nil cap (searchWith_cap_ne_nil f hf cs cap hsw)
    cases hrc : replaceComma cap with
    | nil => exact absurd hrc hne
    | cons a t => simp [pyTruthy, hrc]

/-- The per-user field (first pattern with a fallback) is `None` exactly when
both pattern searches found nothing. -/
theorem pyTruthy_fallback_none_iff (f g : List Char → Option (List Char))
    (hf : ∀ s cap, f s = some cap → cap ≠ [])
    (hg : ∀ s cap, g s = some cap → cap ≠ []) (cs : List Char) :
    pyTruthy ((match searchWith f cs with
               | some c => some c
               | none => searchWith g cs).map (fun c => String.mk (replaceComma c))) = none ↔
      (searchWith f cs = none ∧ searchWith g cs = none) := by
  cases hsf : searchWith f cs with
  | some cap =>
    have hne : replaceComma cap ≠ [] :=
      replaceComma_ne_nil cap (searchWith_cap_ne_nil f hf cs cap hsf)
    cases hrc : replaceComma cap with
    | nil => exact absurd hrc hne
    | cons a t => simp [pyTruthy, hrc, hsf]
  | none =>
    simp only [hsf, true_and]
    simpa using pyTruthy_search_none_iff g hg cs

/- ===================== the claims ===================== -/

/-- C6: for every results-panel text, `extract_results` returns a record with
all three fields, each field being `None` exactly when its text pattern is
absent (for the per-user field: when both of its patterns are absent), and the
header-not-found case yields the all-`None` record instead of a failure. -/
theorem c6_extractor_absent_fields (s : String) :
    extract_results none = ⟨none, none, none⟩ ∧
    ((extract_results (some s)).vram_gb = none ↔ searchWith vramAt s.toList = none) ∧
    ((extract_results (some s)).total_throughput = none ↔
      searchWith (labeledNumAt "Total Throughput:".toList) s.toList = none) ∧
    ((extract_results (some s)).per_user_speed = none ↔
      (searchWith (labeledNumAt "Per-User Speed:".toList) s.toList = none ∧
       searchWith (labeledNumAt "Generation Speed:".toList) s.toList = none)) := by
  refine ⟨rfl, ?_, ?_, ?_⟩
  · exact pyTruthy_search_none_iff vramAt vramAt_cap_ne_nil s.toList
  · exact pyTruthy_search_none_iff _ (labeledNumAt_cap_ne_nil _) s.toList
  · exact pyTruthy_fallback_none_iff _ _ (labeledNumAt_cap_ne_nil _)
      (labeledNumAt_cap_ne_nil _) s.toList

/-- C1: when no matching option ever appears in any attempt's polling window
(typing itself succeeding each time), `select_dropdown_option` returns False
after performing exactly `max_attempts` complete type-then-poll cycles. -/
theorem c1_retry_ceiling_exact (env : Nat → PageAttempt) (target : String)
    (max_attempts : Nat)
    (h : ∀ k, k < max_attempts →
      (env k).inputFound = true ∧
      firstIncl (env k).options target = none ∧
      (env k).exactEls.find? (fun e => e == target) = none) :
    select_dropdown_option env target max_attempts =
      ⟨false, max_attempts, none⟩ := by
  unfold select_dropdown_option
  have := selectLoop_all_none env target max_attempts 0 (fun k hk => by
    obtain ⟨h1, h2, h3⟩ := h k hk
    simpa using attemptSelect_eq_none (env k) target h2 h3)
  simpa using this

/-- Environment in which the input is always present but the target option
never renders. -/
def envNoMatch : Nat → PageAttempt := fun _ => ⟨true, ["Llama 3 8B"], []⟩

theorem c1_retry_ceiling_exact_witness :
    (∀ k, k < 3 → (envNoMatch k).inputFound = true ∧
      firstIncl (envNoMatch k).options "Qwen3-32B" = none ∧
      (envNoMatch k).exactEls.find? (fun e => e == "Qwen3-32B") = none) ∧
    select_dropdown_option envNoMatch "Qwen3-32B" 3 = ⟨false, 3, none⟩ :=
  ⟨by decide, c1_retry_ceiling_exact envNoMatch "Qwen3-32B" 3 (by decide)⟩

/-- Environment in which the target input element never exists. -/
def envNoInput : Nat → PageAttempt := fun _ => ⟨false, [], []⟩

/-- C2 counterexample: when the input element can never be located, the call
does NOT fail immediately — the `continue` at line 148 retries, so all 3
attempts run before False is returned (3 attempts used, not 1). -/
theorem c2_locator_failure_counterexample :
    select_dropdown_option envNoInput "Qwen3-32B" 3 = ⟨false, 3, none⟩ ∧
    (select_dropdown_option envNoInput "Qwen3-32B" 3).attemptsUsed ≠ 1 := by
  decide

/-- C2 amended: locator failure is retried like any other failure within a
call: when the input is absent in every attempt, the typing step fails each
time and the call returns False only after all `max_attempts` attempts. -/
theorem c2_locator_failure_retried (env : Nat → PageAttempt) (target : String)
    (max_attempts : Nat)
    (h : ∀ k, k < max_attempts → (env k).inputFound = false) :
    select_dropdown_option env target max_attempts =
      ⟨false, max_attempts, none⟩ := by
  unfold select_dropdown_option
  have := selectLoop_all_none env target max_attempts 0 (fun k hk => by
    simpa using attemptSelect_noInput (env k) target (h k hk))
  simpa using this

theorem c2_locator_failure_retried_witness :
    (∀ k, k < 3 → (envNoInput k).inputFound = false) ∧
    select_dropdown_option envNoInput "Qwen3-32B" 3 = ⟨false, 3, none⟩ :=
  ⟨by decide, c2_locator_failure_retried envNoInput "Qwen3-32B" 3 (by decide)⟩

/-- C3 counterexample: with the element present but the input's final value
"999" differing from the supplied integer 5, `set_input_value` still returns
True (the source returns True in both branches of its value check). -/
theorem c3_value_check_counterexample :
    set_input_value true (some "999") 5 = true ∧
    ("999" : String) ≠ toString (5 : Int) := by
  constructor
  · rfl
  · decide

/-- C3 amended: `set_input_value` returns success iff the element lookup raised
no exception (element found); the final value is not checked for the return —
success is reported even when the final value differs from the integer. -/
theorem c3_success_iff_element_found (elemFound : Bool) (jsResult : Option String)
    (value : Int) : set_input_value elemFound jsResult value = elemFound := by
  cases elemFound <;> cases jsResult <;> simp [set_input_value]

/-- Environment whose rendered options overlap: an option strictly containing
the target label precedes the exactly-matching option. -/
def envOverlap : Nat → PageAttempt :=
  fun _ => ⟨true, ["Qwen3-30B-A3B", "Qwen3-30B"], []⟩

/-- C4 counterexample: the target "Qwen3-30B" is itself present in the rendered
option set, yet the selector clicks the earlier option "Qwen3-30B-A3B" (first
substring match in document order), so success is reported while the recorded
value differs from the target label. -/
theorem c4_recorded_value_counterexample :
    (select_dropdown_option envOverlap "Qwen3-30B" 3).success = true ∧
    "Qwen3-30B" ∈ (envOverlap 0).options ∧
    (select_dropdown_option envOverlap "Qwen3-30B" 3).recorded ≠ some "Qwen3-30B" := by
  decide

/-- C4 amended: when the first `k` polling windows click nothing and window `k`
(typing succeeded) shows a matching option, the selector reports success and
records the first matching option's text — which contains the target label as a
substring but need not equal it. -/
theorem c4_success_records_first_match (env : Nat → PageAttempt) (target : String)
    (max_attempts k : Nat) (o : String)
    (hk : k < max_attempts)
    (hprev : ∀ j, j < k → attemptSelect (env j) target = none)
    (hin : (env k).inputFound = true)
    (hm : firstIncl (env k).options target = some o) :
    select_dropdown_option env target max_attempts = ⟨true, k + 1, some o⟩ ∧
    trimIncludes o target = true := by
  constructor
  · unfold select_dropdown_option
    have := selectLoop_hit env target o k max_attempts 0 hk
      (fun j hj => by simpa using hprev j hj)
      (by simpa using attemptSelect_eq_some (env k) target o hin hm)
    simpa using this
  · exact firstIncl_some_includes (env k).options target o hm

theorem c4_success_records_first_match_witness :
    ((0 : Nat) < 3 ∧ (∀ j, j < 0 → attemptSelect (envOverlap j) "Qwen3-30B" = none) ∧
     (envOverlap 0).inputFound = true ∧
     firstIncl (envOverlap 0).options "Qwen3-30B" = some "Qwen3-30B-A3B") ∧
    (select_dropdown_option envOverlap "Qwen3-30B" 3 = ⟨true, 1, some "Qwen3-30B-A3B"⟩ ∧
     trimIncludes "Qwen3-30B-A3B" "Qwen3-30B" = true) :=
  ⟨⟨by decide, by decide, by decide, by decide⟩,
   c4_success_records_first_match envOverlap "Qwen3-30B" 3 0 "Qwen3-30B-A3B"
     (by decide) (by decide) (by decide) (by decide)⟩

/-- Environment with several options containing the target label. -/
def envMulti : Nat → PageAttempt :=
  fun _ => ⟨true, ["Gemma 3 27B", "Qwen3-30B-A3B", "Qwen3-30B"], []⟩

/-- C5: when more than one rendered option's visible text contains the target
label (here `o` and, later in document order, `o2`), the selector accepts and
clicks the first match in document order — `o`, the first option after the
non-matching ones. -/
theorem c5_first_match_in_document_order (env : Nat → PageAttempt) (target : String)
    (max_attempts : Nat) (pre : List String) (o : String) (post : List String)
    (ex : List String) (o2 : String)
    (henv : env 0 = ⟨true, pre ++ o :: post, ex⟩)
    (hmax : 0 < max_attempts)
    (ho : trimIncludes o target = true)
    (hpre : ∀ p ∈ pre, trimIncludes p target = false)
    (ho2 : o2 ∈ post)
    (hm2 : trimIncludes o2 target = true) :
    select_dropdown_option env target max_attempts = ⟨true, 1, some o⟩ := by
  have hfi : firstIncl (pre ++ o :: post) target = some o :=
    firstIncl_append_first pre o post target hpre ho
  have hsel : attemptSelect (env 0) target = some o := by
    rw [henv]
    exact attemptSelect_eq_some _ target o rfl (by simpa using hfi)
  obtain ⟨m, rfl⟩ : ∃ m, max_attempts = m + 1 := ⟨max_attempts - 1, by omega⟩
  unfold select_dropdown_option
  simp [selectLoop, hsel]

theorem c5_first_match_in_document_order_witness :
    (envMulti 0 = ⟨true, ["Gemma 3 27B"] ++ "Qwen3-30B-A3B" :: ["Qwen3-30B"], []⟩ ∧
     (0 : Nat) < 3 ∧
     trimIncludes "Qwen3-30B-A3B" "Qwen3-30B" = true ∧
     (∀ p ∈ ["Gemma 3 27B"], trimIncludes p "Qwen3-30B" = false) ∧
     "Qwen3-30B" ∈ ["Qwen3-30B"] ∧
     trimIncludes "Qwen3-30B" "Qwen3-30B" = true) ∧
    select_dropdown_option envMulti "Qwen3-30B" 3 = ⟨true, 1, some "Qwen3-30B-A3B"⟩ :=
  ⟨⟨by decide, by decide, by decide, by decide, by decide, by decide⟩,
   c5_first_match_in_document_order envMulti "Qwen3-30B" 3 ["Gemma 3 27B"]
     "Qwen3-30B-A3B" ["Qwen3-30B"] [] "Qwen3-30B" (by decide) (by decide)
     (by decide) (by decide) (by decide) (by decide)⟩

/-- A fold whose body appends `G x` for each element appends `l.flatMap G`. -/
theorem foldl_appendEach {α : Type} (F : List Row → α → List Row) (G : α → List Row)
    (hF : ∀ acc x, F acc x = acc ++ G x) :
    ∀ (l : List α) (acc : List Row), l.foldl F acc = acc ++ l.flatMap G := by
  intro l
  induction l with
  | nil => intro acc; simp
  | cons a t ih =>
    intro acc
    simp only [List.foldl_cons, List.flatMap_cons]
    rw [hF, ih, List.append_assoc]

/-- A fold whose body appends the single row `g x` for each element appends
`l.map g`. -/
theorem foldl_append_one {α : Type} (F : List Row → α → List Row) (g : α → Row)
    (hF : ∀ acc x, F acc x = acc ++ [g x]) :
    ∀ (l : List α) (acc : List Row), l.foldl F acc = acc ++ l.map g := by
  intro l
  induction l with
  | nil => intro acc; simp
  | cons a t ih =>
    intro acc
    simp only [List.foldl_cons, List.map_cons]
    rw [hF, ih]
    simp

/-- The nested collection loop over arbitrary configuration lists is the
cross-product map of `specRow`. -/
theorem nestedLoop_eq (M : List (String × String × String)) (B : List Int)
    (C : List (Int × String)) (U : List Int)
    (env : String × String × String → Int → Int × String → Int → StepEnv) :
    M.foldl (fun acc m =>
      B.foldl (fun acc b =>
        C.foldl (fun acc c =>
          U.foldl (fun acc u =>
            match collect_single_configuration m.1 m.2.1 m.2.2 b c.1 c.2 u (env m b c u) with
            | some r => acc ++ [r]
            | none => acc) acc) acc) acc) []
    = (M.flatMap (fun m => B.flatMap (fun b => C.flatMap (fun c =>
        U.map (fun u => (m, b, c, u)))))).map
        (fun s => specRow s.1 s.2.1 s.2.2.1 s.2.2.2
          (env s.1 s.2.1 s.2.2.1 s.2.2.2)) := by
  have hU : ∀ m b c acc,
      U.foldl (fun acc u =>
        match collect_single_configuration m.1 m.2.1 m.2.2 b c.1 c.2 u (env m b c u) with
        | some r => acc ++ [r]
        | none => acc) acc
      = acc ++ U.map (fun u => specRow m b c u (env m b c u)) :=
    fun m b c acc => foldl_append_one _ _ (fun acc u => rfl) U acc
  have hC : ∀ m b acc,
      C.foldl (fun acc c =>
        U.foldl (fun acc u =>
          match collect_single_configuration m.1 m.2.1 m.2.2 b c.1 c.2 u (env m b c u) with
          | some r => acc ++ [r]
          | none => acc) acc) acc
      = acc ++ C.flatMap (fun c => U.map (fun u => specRow m b c u (env m b c u))) :=
    fun m b acc => foldl_appendEach _ _ (fun acc c => hU m b c acc) C acc
  have hB : ∀ m acc,
      B.foldl (fun acc b =>
        C.foldl (fun acc c =>
          U.foldl (fun acc u =>
            match collect_single_configuration m.1 m.2.1 m.2.2 b c.1 c.2 u (env m b c u) with
            | some r => acc ++ [r]
            | none => acc) acc) acc) acc
      = acc ++ B.flatMap (fun b => C.flatMap (fun c =>
          U.map (fun u => specRow m b c u (env m b c u)))) :=
    fun m acc => foldl_appendEach _ _ (fun acc b => hC m b acc) B acc
  have hM : M.foldl (fun acc m =>
      B.foldl (fun acc b =>
        C.foldl (fun acc c =>
          U.foldl (fun acc u =>
            match collect_single_configuration m.1 m.2.1 m.2.2 b c.1 c.2 u (env m b c u) with
            | some r => acc ++ [r]
            | none => acc) acc) acc) acc) []
      = [] ++ M.flatMap (fun m => B.flatMap (fun b => C.flatMap (fun c =>
          U.map (fun u => specRow m b c u (env m b c u))))) :=
    foldl_appendEach _ _ (fun acc m => hB m acc) M []
  rw [hM]
  simp only [List.nil_append, List.map_flatMap, List.map_map, Function.comp_def]

/-- The nested collection loop is the cross-product map of `specRow`. -/
theorem run_full_collection_eq_spec
    (env : String × String × String → Int → Int × String → Int → StepEnv) :
    run_full_collection env = specCollectionRows env :=
  nestedLoop_eq MODELS BATCH_SIZES CONTEXT_LENGTHS CONCURRENT_USERS env

set_option maxRecDepth 4000 in
/-- C7: for every environment (so regardless of per-field failures inside any
scenario), a full collection run produces exactly the cross-product of
scenarios, one row each, in iteration order: it equals the spec-side
description, and its length is |MODELS| × |BATCH_SIZES| × |CONTEXT_LENGTHS| ×
|CONCURRENT_USERS|. -/
theorem c7_one_row_per_scenario
    (env : String × String × String → Int → Int × String → Int → StepEnv) :
    run_full_collection env = specCollectionRows env ∧
    (run_full_collection env).length =
      MODELS.length * BATCH_SIZES.length * CONTEXT_LENGTHS.length *
        CONCURRENT_USERS.length := by
  refine ⟨run_full_collection_eq_spec env, ?_⟩
  rw [run_full_collection_eq_spec env]
  unfold specCollectionRows
  rw [List.length_map]
  rfl

/-- C8: on user interruption and on fatal error, `main` exports exactly the
rows collected so far (whenever any were collected) before terminating —
swallowing the interrupt, propagating the error. -/
theorem c8_partial_rows_exported (rows : List Row) (timestamp : String)
    (h : rows ≠ []) :
    (mainDriver (RunOutcome.interrupted rows) timestamp).1 =
      [⟨"vram_results_partial.xlsx", rows⟩] ∧
    (mainDriver (RunOutcome.interrupted rows) timestamp).2 = false ∧
    (mainDriver (RunOutcome.errored rows) timestamp).1 =
      [⟨"vram_results_error.xlsx", rows⟩] ∧
    (mainDriver (RunOutcome.errored rows) timestamp).2 = true := by
  cases rows with
  | nil => exact absurd rfl h
  | cons r rest => exact ⟨rfl, rfl, rfl, rfl⟩

/-- A sample collected row. -/
def rowSample : Row := ⟨"qwen3:32b-q8_0", "Q8", 1, "2K", 1, none, none, none⟩

theorem c8_partial_rows_exported_witness :
    ([rowSample] ≠ ([] : List Row)) ∧
    ((mainDriver (RunOutcome.interrupted [rowSample]) "20240101_000000").1 =
       [⟨"vram_results_partial.xlsx", [rowSample]⟩] ∧
     (mainDriver (RunOutcome.interrupted [rowSample]) "20240101_000000").2 = false ∧
     (mainDriver (RunOutcome.errored [rowSample]) "20240101_000000").1 =
       [⟨"vram_results_error.xlsx", [rowSample]⟩] ∧
     (mainDriver (RunOutcome.errored [rowSample]) "20240101_000000").2 = true) :=
  ⟨by decide, c8_partial_rows_exported [rowSample] "20240101_000000" (by decide)⟩

/-- C9: on every exit path of `run_full_collection` — normal completion and
raised exception alike — once the session was created it is quit, and the quit
is the final session event before the call terminates. -/
theorem c9_session_teardown (setupOk : Bool) (body : BodyOutcome)
    (h : SessionEvent.created ∈ (run_full_collection_session setupOk body).1) :
    SessionEvent.quit ∈ (run_full_collection_session setupOk body).1 ∧
    (run_full_collection_session setupOk body).1.getLast? =
      some SessionEvent.quit := by
  cases setupOk <;> cases body <;> revert h <;> decide

theorem c9_session_teardown_witness :
    (SessionEvent.created ∈ (run_full_collection_session true BodyOutcome.raised).1) ∧
    (SessionEvent.quit ∈ (run_full_collection_session true BodyOutcome.raised).1 ∧
     (run_full_collection_session true BodyOutcome.raised).1.getLast? =
       some SessionEvent.quit) :=
  ⟨by decide, c9_session_teardown true BodyOutcome.raised (by decide)⟩

/-- C10: `collect_single_configuration` always returns a row (never `None`)
whose five input-parameter columns equal exactly the scenario parameters it was
called with — for every step environment, including one where every selection
and value-setting step failed — and the extraction outcome determines only the
three output columns. -/
theorem c10_row_params_faithful (model_display_name model_site_name quantization : String)
    (batch_size context_length : Int) (context_label : String) (concurrent_users : Int)
    (env : StepEnv) :
    ∃ r : Row,
      collect_single_configuration model_display_name model_site_name quantization
        batch_size context_length context_label concurrent_users env = some r ∧
      r.model = model_display_name ∧ r.quantization = quantization ∧
      r.batchSize = batch_size ∧ r.contextLength = context_label ∧
      r.concurrentUsers = concurrent_users ∧
      r.vram_gb = (extract_results env.container).vram_gb ∧
      r.tokensPerUser = (extract_results env.container).per_user_speed ∧
      r.totalThroughput = (extract_results env.container).total_throughput :=
  ⟨_, rfl, rfl, rfl, rfl, rfl, rfl, rfl, rfl, rfl⟩
